import Mathlib

/-!
Verification of the InstaAI-Studio video pipeline specification against a
shallow embedding of the repository code.

The embedding covers:
* `src/src/video_processor/video_editor.py` (editing primitives),
* `src/src/video_processor/repurposer.py` (repurposing engine),
* `src/src/nl_parser/command_parser.py` (operation executor),
* `src/src/config.py` (the `INSTAGRAM_SPECS` table).

Times and durations are modelled as rationals; pixel dimensions as rationals
as well, since the Python code performs float division on them.  MoviePy
library calls (subclip, crossfadein, concatenate, composite, crop, resize)
are modelled by their effect on the observable clip attributes used by the
code: duration, width, height and fade parameters.  Scene detection, media
downloads and file loading are external effects and are passed in as
explicit oracle parameters.
-/

namespace InstaAI

/-- Model of a MoviePy clip as used by `video_editor.py`: observable
attributes are the duration, frame width and height, and the fade attributes
set by `crossfadein` / `fadein` / `fadeout`. -/
structure Clip where
  duration : ℚ
  w : ℚ
  h : ℚ
  crossfade : ℚ
  fadeInDur : ℚ
  fadeOutDur : ℚ
deriving DecidableEq, Repr

/-- `clip.crossfadein(td)`: returns a copy of the clip with the crossfade
attribute set; duration and size are unchanged. -/
def crossfadein (c : Clip) (td : ℚ) : Clip := { c with crossfade := td }

/-- `fadein(clip, td)` from `moviepy.video.fx`. -/
def fadein (c : Clip) (td : ℚ) : Clip := { c with fadeInDur := td }

/-- `fadeout(clip, td)` from `moviepy.video.fx`. -/
def fadeout (c : Clip) (td : ℚ) : Clip := { c with fadeOutDur := td }

/-- `clip.subclip(start, end)`: same frame size, duration `end - start`. -/
def subclip (c : Clip) (s e : ℚ) : Clip := { c with duration := e - s }

/-- Python `int()` truncation toward zero on a rational. -/
def ratTrunc (q : ℚ) : ℤ := if 0 ≤ q then q.floor else -(-q).floor

/-- One entry of `Config.INSTAGRAM_SPECS` (`src/src/config.py`, lines 48-74);
the fields read by `resize_for_instagram` are the aspect ratio and the pixel
resolution. -/
structure IgSpec where
  arW : ℚ
  arH : ℚ
  resW : ℚ
  resH : ℚ
deriving DecidableEq, Repr

def reelSpec : IgSpec := ⟨9, 16, 1080, 1920⟩

def storySpec : IgSpec := ⟨9, 16, 1080, 1920⟩

def carouselSpec : IgSpec := ⟨1, 1, 1080, 1080⟩

def feedSpec : IgSpec := ⟨1, 1, 1080, 1080⟩

/-- The `Config.INSTAGRAM_SPECS.get` lookup with the reel entry as the
default for unknown keys. -/
def instagramSpecsGet (contentType : String) : IgSpec :=
  if contentType = "reel" then reelSpec
  else if contentType = "story" then storySpec
  else if contentType = "carousel" then carouselSpec
  else if contentType = "feed" then feedSpec
  else reelSpec

/-- The geometric operations `resize_for_instagram` can apply to the frame,
in the order applied.  `pad` is the letterbox operation the docstring
advertises for the pad method; the code contains no call that would emit it. -/
inductive ROp where
  | cropW (x1 width : ℚ)
  | cropH (y1 height : ℚ)
  | pad (left right top bottom : ℚ)
  | scale (w h : ℚ)
deriving DecidableEq, Repr

/-- Embedding of `VideoEditor.resize_for_instagram`
(`src/src/video_processor/video_editor.py`, lines 116-154).  Returns the
resulting clip together with the list of frame operations performed. -/
def resizeForInstagram (clip : Clip) (contentType : String) (method : String) :
    Clip × List ROp :=
  let specs := instagramSpecsGet contentType
  let targetWidth := specs.resW
  let targetHeight := specs.resH
  let targetRatio := targetWidth / targetHeight
  let currentRatio := clip.w / clip.h
  let cropped : Clip :=
    if method = "crop" then
      if currentRatio > targetRatio then
        { clip with w := (ratTrunc (clip.h * targetRatio) : ℚ) }
      else
        { clip with h := (ratTrunc (clip.w / targetRatio) : ℚ) }
    else clip
  let cropOps : List ROp :=
    if method = "crop" then
      if currentRatio > targetRatio then
        let newWidth : ℚ := (ratTrunc (clip.h * targetRatio) : ℚ)
        [ROp.cropW (clip.w / 2 - newWidth / 2) newWidth]
      else
        let newHeight : ℚ := (ratTrunc (clip.w / targetRatio) : ℚ)
        [ROp.cropH (clip.h / 2 - newHeight / 2) newHeight]
    else []
  ({ cropped with w := targetWidth, h := targetHeight },
   cropOps ++ [ROp.scale targetWidth targetHeight])

/-- `concatenate_videoclips(clips, method="compose")`: fails (raises) on the
empty list; otherwise the durations add and the frame is the maximum size
among the inputs. -/
def concatVideoclips : List Clip → Option Clip
  | [] => none
  | c :: cs =>
    some { duration := ((c :: cs).map Clip.duration).sum
           w := (cs.map Clip.w).foldl max c.w
           h := (cs.map Clip.h).foldl max c.h
           crossfade := 0, fadeInDur := 0, fadeOutDur := 0 }

/-- The subclip list built by the loop of `VideoEditor.create_jump_cuts`
(`video_editor.py`, lines 70-76): each segment is extracted with `subclip`,
and every subclip but the first receives `crossfadein` when
`transition_duration > 0`.  `first` tracks `len(subclips) == 0`. -/
def jumpCutSubclips (clip : Clip) (td : ℚ) :
    List (ℚ × ℚ) → Bool → List Clip
  | [], _ => []
  | se :: rest, first =>
    let sc := subclip clip se.1 se.2
    let sc := if 0 < td ∧ first = false then crossfadein sc td else sc
    sc :: jumpCutSubclips clip td rest false

/-- Embedding of `VideoEditor.create_jump_cuts` (`video_editor.py`, lines
56-83): extract each segment in order, optionally crossfade, concatenate.
`none` models the exception `concatenate_videoclips` raises on an empty
subclip list. -/
def createJumpCuts (clip : Clip) (segments : List (ℚ × ℚ)) (td : ℚ) :
    Option Clip :=
  concatVideoclips (jumpCutSubclips clip td segments true)

/-- Embedding of `VideoEditor.auto_detect_cuts` (`video_editor.py`, lines
85-114).  The call to `moviepy.video.tools.cuts.detect_scenes` is an external
effect and is passed in as its outcome `detect`: `Except.error ()` models the
call raising an exception, `Except.ok scenes` a successful detection result.
On success the scenes shorter than `minSceneDuration` are filtered out; the
whole-clip fallback `[(0, clip.duration)]` is produced only by the `except`
branch. -/
def autoDetectCuts (detect : Except Unit (List (ℚ × ℚ)))
    (clipDuration minSceneDuration : ℚ) : List (ℚ × ℚ) :=
  match detect with
  | .error _ => [(0, clipDuration)]
  | .ok scenes =>
      scenes.filter (fun se => decide (minSceneDuration ≤ se.2 - se.1))

/-- Result of `VideoEditor.add_text_overlay`: the composite video clip plus
the start and duration given to the text layer (observable attributes of the
`TextClip` inside the composite). -/
structure OverlayResult where
  video : Clip
  textStart : ℚ
  textDuration : ℚ
deriving DecidableEq, Repr

/-- The error vocabulary of the embedded layer.  `invalidTimeRange` is the
spec name for the time-validation failure of `add_text_overlay`;
`notImplemented` models the `NotImplementedError` the executor raises for
`concatenate` (the failure the spec calls `NotSupportedHereError`);
`unknownOperation` models the `ValueError` for an unknown operation type;
`emptyClipList` models the exception `concatenate_videoclips` raises on an
empty list; `loadFailure` a failed media load. -/
inductive EditError where
  | invalidTimeRange
  | notImplemented
  | unknownOperation (name : String)
  | emptyClipList
  | loadFailure
deriving DecidableEq, Repr

/-- Embedding of `VideoEditor.add_text_overlay` (`video_editor.py`, lines
156-218).  The text layer duration defaults to `clip.duration - start_time`
when `duration` is `None`; the composite clip keeps the base frame size and
its duration is the largest layer end time.  The source performs no
validation of `start_time`, so no input reaches an error. -/
def addTextOverlay (clip : Clip) (startTime : ℚ) (duration : Option ℚ) :
    Except EditError OverlayResult :=
  let d : ℚ :=
    match duration with
    | none => clip.duration - startTime
    | some d => d
  .ok { video := { clip with duration := max clip.duration (startTime + d) }
        textStart := startTime
        textDuration := d }

/-- Embedding of `VideoEditor.concatenate_clips` (`video_editor.py`, lines
280-309).  The Python code assigns into the caller-supplied `clips` list
(`clips[i] = ...`, `clips[0] = ...`, `clips[-1] = ...`), so the embedding
passes the list state explicitly: the first component of the result is the
content of the list of the caller after the call.  `none` in the second component
models the exception raised on an empty input list. -/
def concatenateClips (clips : List Clip) (transition : Option String)
    (transitionDuration : ℚ) : List Clip × Option Clip :=
  let clips' : List Clip :=
    if transition = some "crossfade" then
      match clips with
      | [] => []
      | c0 :: rest => c0 :: rest.map (fun c => crossfadein c transitionDuration)
    else if transition = some "fadein" then
      match clips with
      | [] => []
      | c0 :: rest => fadein c0 transitionDuration :: rest
    else if transition = some "fadeout" then
      match clips with
      | [] => []
      | c0 :: rest =>
          (c0 :: rest).dropLast ++
            [fadeout ((c0 :: rest).getLast (List.cons_ne_nil c0 rest))
              transitionDuration]
    else clips
  (clips', concatVideoclips clips')

/-- `VideoEditor.apply_speed_effect` (`video_editor.py`, lines 311-329):
`speedx(factor)` divides the duration by the factor. -/
def applySpeedEffect (c : Clip) (factor : ℚ) : Clip :=
  { c with duration := c.duration / factor }

/-- `VideoEditor.trim_clip` (`video_editor.py`, lines 46-54): delegates to
`subclip`. -/
def trimClip (c : Clip) (s e : ℚ) : Clip := subclip c s e

/-! ### Operation executor (`src/src/nl_parser/command_parser.py`) -/

/-- A parsed operation as dispatched by
`CommandExecutor._execute_single_operation` (`command_parser.py`, lines
260-298): one constructor per dispatch branch, carrying the parameters that
branch forwards to the editing primitive; `unknown` covers every
unrecognized type string. -/
inductive Operation where
  | trim (startTime endTime : ℚ)
  | jumpCuts (segments : List (ℚ × ℚ)) (transitionDuration : ℚ)
  | autoJumpCuts (threshold minDuration : ℚ)
  | addText (text : String) (startTime : ℚ) (duration : Option ℚ)
  | addCta (text : String) (startTime : ℚ) (duration : Option ℚ)
  | addMusic (audioFile : String)
  | speed (factor : ℚ)
  | resize (contentType method : String)
  | concatenate
  | unknown (name : String)
deriving DecidableEq, Repr

/-- External effects reached from the executor: scene detection (given the
threshold and the current clip) and loading of an audio file (its duration,
`none` when the load raises). -/
structure ExecEnv where
  detect : ℚ → Clip → Except Unit (List (ℚ × ℚ))
  audioDur : String → Option ℚ

/-- Embedding of `CommandExecutor._execute_single_operation`
(`command_parser.py`, lines 260-298).  `add_music` leaves the observable
clip attributes unchanged (`set_audio` replaces only the audio track);
`concatenate` raises `NotImplementedError` before touching any primitive. -/
def executeSingleOperation (env : ExecEnv) (op : Operation) (clip : Clip) :
    Except EditError Clip :=
  match op with
  | .trim s e => .ok (trimClip clip s e)
  | .jumpCuts segs td =>
      match createJumpCuts clip segs td with
      | some c => .ok c
      | none => .error .emptyClipList
  | .autoJumpCuts threshold minDuration =>
      let segments :=
        autoDetectCuts (env.detect threshold clip) clip.duration minDuration
      match createJumpCuts clip segments 0 with
      | some c => .ok c
      | none => .error .emptyClipList
  | .addText _ startTime dur => (addTextOverlay clip startTime dur).map (·.video)
  | .addCta _ startTime dur => (addTextOverlay clip startTime dur).map (·.video)
  | .addMusic audioFile =>
      match env.audioDur audioFile with
      | none => .error .loadFailure
      | some _ => .ok clip
  | .speed factor => .ok (applySpeedEffect clip factor)
  | .resize contentType method =>
      .ok (resizeForInstagram clip contentType method).fst
  | .concatenate => .error .notImplemented
  | .unknown name => .error (.unknownOperation name)

/-- Embedding of `CommandExecutor.execute_operations` (`command_parser.py`,
lines 227-258): sequential fold over the operation list with a single
current-clip accumulator, stopping and re-raising at the first failure. -/
def executeOperations (env : ExecEnv) :
    List Operation → Clip → Except EditError Clip
  | [], clip => .ok clip
  | op :: rest, clip =>
      match executeSingleOperation env op clip with
      | .ok clip' => executeOperations env rest clip'
      | .error e => .error e

/-! ### Repurposing engine (`src/src/video_processor/repurposer.py`) -/

/-- A candidate clip record as built by `create_reel_from_plan`
(`repurposer.py`, lines 221-231): the dict
`{"filepath": ..., "start": ..., "end": ..., "duration": ...}`.  The Python
key `end` is called `stop` here because `end` is reserved in Lean. -/
structure Cand where
  path : String
  start : ℚ
  stop : ℚ
  duration : ℚ
deriving DecidableEq, Repr

/-- Total duration of a candidate list (sum of the `duration` fields). -/
def totalDur (l : List Cand) : ℚ := (l.map Cand.duration).sum

/-- The loop of `VideoRepurposer._select_clips_for_duration`
(`repurposer.py`, lines 307-333), after the in-place shuffle: `cur` is
`current_duration`.  A candidate that fits is taken whole; one that would
overshoot is trimmed to the remaining budget and ends the selection when the
budget is at least 3 seconds, and otherwise is passed over while the loop
continues with the rest. -/
def selectGo (target : ℚ) : ℚ → List Cand → List Cand
  | _, [] => []
  | cur, c :: rest =>
    if target ≤ cur then []
    else
      let remaining := target - cur
      if c.duration ≤ remaining then
        c :: selectGo target (cur + c.duration) rest
      else if 3 ≤ remaining then
        [{ c with stop := c.start + remaining, duration := remaining }]
      else selectGo target cur rest

/-- Embedding of `VideoRepurposer._select_clips_for_duration`
(`repurposer.py`, lines 294-333).  The method first shuffles the list of
the caller in place (`random.shuffle(clips)`); the argument `clips` here is the
list in its post-shuffle order, so every property proved for all `clips`
holds for every shuffle outcome. -/
def selectClips (clips : List Cand) (targetDuration : ℚ) : List Cand :=
  selectGo targetDuration 0 clips

/-- Python `str.lower()`: character-wise lowercasing.  (Equal to
`String.toLower` on the ASCII strings the code compares; written as an
explicit character map so that concrete instances reduce.) -/
def pyLower (s : String) : String := ⟨s.data.map Char.toLower⟩

/-- Python substring test `pat in s` on strings. -/
def hasSub (pat s : String) : Bool :=
  let p := pat.toList
  let t := s.toList
  (List.range (t.length + 1)).any (fun i => decide ((t.drop i).take p.length = p))

/-- A source post record as consumed by `download_batch` and
`create_reel_from_plan`: the dict keys `media_id`, `media_url`,
`media_type`, each possibly absent. -/
structure Post where
  mediaId : Option String
  mediaUrl : Option String
  mediaType : Option String
deriving DecidableEq, Repr

/-- Embedding of `VideoRepurposer.download_batch` (`repurposer.py`, lines
89-124).  `dl url mid kind` is the outcome of `download_media` for that
asset (`none` when the download fails).  Posts with a missing or empty id or
url are skipped; a post is downloaded as video when its (defaulted,
lowercased) media type contains `"video"`, as image when it contains
`"image"`; failed downloads are dropped from the result.  `downloadTask` is
the loop body (`repurposer.py`, lines 102-114) for one post: `none` when
the post is skipped, otherwise the `(media_id, download outcome)` task. -/
def downloadTask (dl : String → String → String → Option String)
    (post : Post) : Option (String × Option String) :=
  match post.mediaId, post.mediaUrl with
  | some mid, some url =>
    if mid = "" ∨ url = "" then none
    else
      let mt := pyLower (post.mediaType.getD "VIDEO")
      if hasSub "video" mt then some (mid, dl url mid "video")
      else if hasSub "image" mt then some (mid, dl url mid "image")
      else none
  | _, _ => none

def downloadBatch (dl : String → String → String → Option String)
    (posts : List Post) : List (String × String) :=
  let tasks : List (String × Option String) := posts.filterMap (downloadTask dl)
  tasks.filterMap (fun t => t.2.map (fun p => (t.1, p)))

/-- Embedding of `VideoRepurposer.extract_best_clips` (`repurposer.py`,
lines 126-176) given the loaded video duration and the scene-detection
outcome: scenes from `auto_detect_cuts` are filtered to the duration window;
when none survive, the video is split into up to `maxClips` equal chunks and
chunks shorter than the window minimum are discarded; the first `maxClips`
entries are returned. -/
def extractBestClips (videoDuration : ℚ)
    (detect : Except Unit (List (ℚ × ℚ))) (dmin dmax : ℚ) (maxClips : ℕ) :
    List (ℚ × ℚ) :=
  let scenes := autoDetectCuts detect videoDuration dmin
  let valid := scenes.filter (fun se =>
    decide (dmin ≤ se.2 - se.1) && decide (se.2 - se.1 ≤ dmax))
  let valid :=
    if valid = [] then
      let clipDuration := min dmax (videoDuration / (maxClips : ℚ))
      (List.range maxClips).filterMap (fun i =>
        let s := (i : ℚ) * clipDuration
        let e := min (s + clipDuration) videoDuration
        if dmin ≤ e - s then some (s, e) else none)
    else valid
  valid.take maxClips

/-- External effects reached from `create_reel_from_plan`: per-asset
download outcomes, the duration of a downloaded video file (`Except.error`
when loading raises), the scene-detection outcome per file, clip loading for
assembly, and the final export (`none` when it fails). -/
structure RepEnv where
  dl : String → String → String → Option String
  videoDur : String → Except Unit ℚ
  detectScenes : String → Except Unit (List (ℚ × ℚ))
  load : String → Option Clip
  exportVideo : Clip → Option String

/-- The `extract_best_clips` call made by `create_reel_from_plan` for one
downloaded file, with the duration window (3, 8) and `max_clips=3`; a video
that fails to load yields `[]` (the except branch of `extract_best_clips`). -/
def extractForPath (env : RepEnv) (path : String) : List (ℚ × ℚ) :=
  match env.videoDur path with
  | .error _ => []
  | .ok dur => extractBestClips dur (env.detectScenes path) 3 8 3

/-- Embedding of `VideoRepurposer.create_reel_from_plan` (`repurposer.py`,
lines 178-283), taking the already-parsed target duration and hook text.
The pipeline returns `none` (the Python `return None`, or the enclosing
`except` catching a raised error) when: no video posts exist, no download
succeeds, no candidate clips are extracted, a selected clip fails to load,
concatenation receives an empty list, or the export fails. -/
def createReelFromPlan (env : RepEnv) (targetDuration : ℚ) (hook : String)
    (sourcePosts : List Post) : Option String :=
  let videoPosts :=
    (sourcePosts.filter
      (fun p => hasSub "video" (pyLower (p.mediaType.getD "")))).take 5
  if videoPosts = [] then none
  else
    let downloaded := downloadBatch env.dl videoPosts
    if downloaded = [] then none
    else
      let allClipsData : List Cand := downloaded.flatMap (fun mp =>
        (extractForPath env mp.2).map (fun se =>
          { path := mp.2, start := se.1, stop := se.2
            duration := se.2 - se.1 }))
      if allClipsData = [] then none
      else
        let selected := selectClips allClipsData targetDuration
        match selected.mapM (fun cd =>
          (env.load cd.path).map (fun v =>
            (resizeForInstagram (trimClip v cd.start cd.stop) "reel"
              "crop").fst)) with
        | none => none
        | some videoClips =>
          match (concatenateClips videoClips (some "crossfade") (3/10)).2 with
          | none => none
          | some finalVideo =>
            let withHook : Except EditError Clip :=
              if hook = "" then .ok finalVideo
              else (addTextOverlay finalVideo 0 (some 3)).map (·.video)
            match withHook with
            | .error _ => none
            | .ok fv => env.exportVideo fv

/-! ## Theorems -/

/-- C5: for every input clip, regardless of its source width-to-height
ratio, and for every recognized content type, `resize_for_instagram` returns
a clip whose pixel resolution is exactly the RenderSpec resolution for that
content type: 1080x1920 for reel and story, 1080x1080 for carousel and
feed. -/
theorem resize_yields_render_spec_resolution (clip : Clip) (method : String) :
    ((resizeForInstagram clip "reel" method).1.w = 1080 ∧
     (resizeForInstagram clip "reel" method).1.h = 1920) ∧
    ((resizeForInstagram clip "story" method).1.w = 1080 ∧
     (resizeForInstagram clip "story" method).1.h = 1920) ∧
    ((resizeForInstagram clip "carousel" method).1.w = 1080 ∧
     (resizeForInstagram clip "carousel" method).1.h = 1080) ∧
    ((resizeForInstagram clip "feed" method).1.w = 1080 ∧
     (resizeForInstagram clip "feed" method).1.h = 1080) := by
  refine ⟨⟨?_, ?_⟩, ⟨?_, ?_⟩, ⟨?_, ?_⟩, ⟨?_, ?_⟩⟩ <;> rfl

/-- C10: for any content type string that is not one of the four recognized
types, `resize_for_instagram` does not fail: the `.get` default falls back
to the reel spec and the returned clip is 1080x1920. -/
theorem resize_unknown_type_reel_default (clip : Clip) (ct method : String)
    (h1 : ct ≠ "reel") (h2 : ct ≠ "story") (h3 : ct ≠ "carousel")
    (h4 : ct ≠ "feed") :
    (resizeForInstagram clip ct method).1.w = 1080 ∧
    (resizeForInstagram clip ct method).1.h = 1920 := by
  constructor <;>
    simp [resizeForInstagram, instagramSpecsGet, h1, h2, h3, h4, reelSpec]

/-- Witness for C10 at the unrecognized content type string `"square"`. -/
theorem resize_unknown_type_reel_default_witness :
    (resizeForInstagram ⟨10, 640, 480, 0, 0, 0⟩ "square" "crop").1.w = 1080 ∧
    (resizeForInstagram ⟨10, 640, 480, 0, 0, 0⟩ "square" "crop").1.h = 1920 :=
  resize_unknown_type_reel_default ⟨10, 640, 480, 0, 0, 0⟩ "square" "crop"
    (by decide) (by decide) (by decide) (by decide)

/-- C4 (code bug): on a 1920x1080 (16:9) source resized for `reel` with
the pad method, the code performs exactly one operation, a direct scale to
1080x1920 — no crop, but also no letterbox pad, although the docstring says
pad adds black bars.  The two axis scale factors `1080/1920` and `1920/1080`
differ, so the source content is distorted rather than letterboxed. -/
theorem resize_pad_is_bare_distorting_scale :
    (resizeForInstagram ⟨10, 1920, 1080, 0, 0, 0⟩ "reel" "pad").2 =
      [ROp.scale 1080 1920] ∧
    (resizeForInstagram ⟨10, 1920, 1080, 0, 0, 0⟩ "reel" "pad").1 =
      ⟨10, 1080, 1920, 0, 0, 0⟩ ∧
    (1080 : ℚ) / 1920 ≠ (1920 : ℚ) / 1080 := by
  refine ⟨rfl, rfl, by norm_num⟩

/-- C2 (amended): `auto_detect_cuts` returns the whole-clip fallback
`[(0, clip.duration)]` exactly when scene detection raises; when detection
succeeds and every detected scene is shorter than `min_scene_duration`, the
result is the empty list, not the fallback. -/
theorem auto_detect_fallback (dur minS : ℚ) (scenes : List (ℚ × ℚ)) :
    autoDetectCuts (.error ()) dur minS = [(0, dur)] ∧
    ((∀ se ∈ scenes, se.2 - se.1 < minS) →
      autoDetectCuts (.ok scenes) dur minS = []) := by
  refine ⟨rfl, fun h => ?_⟩
  simp only [autoDetectCuts, List.filter_eq_nil_iff]
  intro se hse
  have := h se hse
  simp only [decide_eq_true_eq, not_le]
  linarith

/-- Witness for C2: detection succeeds with a single half-second scene and
`min_scene_duration = 1`; the result is empty. -/
theorem auto_detect_fallback_witness :
    autoDetectCuts (.ok [((0 : ℚ), (1 : ℚ) / 2)]) 10 1 = [] :=
  (auto_detect_fallback 10 1 [(0, 1 / 2)]).2 (by
    rintro se hse
    simp only [List.mem_singleton] at hse
    subst hse
    norm_num)

/-- C2 counterexample: with detection succeeding and the only scene shorter
than `min_scene_duration` (zero usable scenes), the result is `[]`, not the
whole-clip fallback `[(0, 10)]` the claim requires. -/
theorem auto_detect_no_fallback_counterexample :
    autoDetectCuts (.ok [((0 : ℚ), (1 : ℚ) / 2)]) 10 1 = [] ∧
    autoDetectCuts (.ok [((0 : ℚ), (1 : ℚ) / 2)]) 10 1 ≠ [(0, 10)] := by
  have h : autoDetectCuts (.ok [((0 : ℚ), (1 : ℚ) / 2)]) 10 1 = [] := by
    simp only [autoDetectCuts, List.filter_eq_nil_iff]
    rintro se hse
    simp only [List.mem_singleton] at hse
    subst hse
    simp only [decide_eq_true_eq, not_le]
    norm_num
  exact ⟨h, by rw [h]; simp⟩

/-- C3 (amended): editing primitives return new clip values, and
`concatenate_clips` leaves the caller-supplied list unchanged when no
transition is requested; with a transition it overwrites entries of that
list in place (see the counterexample). -/
theorem concatenate_no_transition_preserves_list (clips : List Clip)
    (td : ℚ) :
    (concatenateClips clips none td).1 = clips := by
  simp [concatenateClips]

/-- C3 counterexample: with a crossfade transition, `concatenate_clips`
reassigns `clips[1]` in the caller-supplied list, so the list is observably
different after the call. -/
theorem concatenate_mutates_list_counterexample :
    (concatenateClips [⟨5, 1080, 1920, 0, 0, 0⟩, ⟨5, 1080, 1920, 0, 0, 0⟩]
        (some "crossfade") (1 / 2)).1 ≠
      [⟨5, 1080, 1920, 0, 0, 0⟩, ⟨5, 1080, 1920, 0, 0, 0⟩] := by
  simp [concatenateClips, crossfadein]

/-- Duration of a non-empty compose concatenation is the sum of the input
durations. -/
theorem concatVideoclips_duration (c : Clip) (cs : List Clip) :
    (concatVideoclips (c :: cs)).map Clip.duration =
      some (((c :: cs).map Clip.duration).sum) := rfl

/-- With `transition_duration = 0`, the subclips built by `create_jump_cuts`
have exactly the segment lengths as durations. -/
theorem jumpCutSubclips_durations (clip : Clip) (segs : List (ℚ × ℚ))
    (first : Bool) :
    (jumpCutSubclips clip 0 segs first).map Clip.duration =
      segs.map (fun se => se.2 - se.1) := by
  induction segs generalizing first with
  | nil => rfl
  | cons se rest ih => simp [jumpCutSubclips, subclip, ih]

/-- C6: for every clip and non-empty list of valid segments, with
`transition_duration = 0` the jump-cut output duration is the sum of the
segment lengths. -/
theorem jump_cuts_duration_sum (clip : Clip) (segments : List (ℚ × ℚ))
    (hne : segments ≠ [])
    (hvalid : ∀ se ∈ segments,
      0 ≤ se.1 ∧ se.1 < se.2 ∧ se.2 ≤ clip.duration) :
    (createJumpCuts clip segments 0).map Clip.duration =
      some ((segments.map (fun se => se.2 - se.1)).sum) := by
  cases segments with
  | nil => exact absurd rfl hne
  | cons se rest =>
    have hJ : jumpCutSubclips clip 0 (se :: rest) true =
        subclip clip se.1 se.2 :: jumpCutSubclips clip 0 rest false := by
      simp [jumpCutSubclips]
    show (concatVideoclips (jumpCutSubclips clip 0 (se :: rest) true)).map
        Clip.duration = _
    rw [hJ, concatVideoclips_duration]
    congr 1
    simp [subclip, jumpCutSubclips_durations clip rest false]

/-- Witness for C6 (Scenario B): a 20-second clip with segments
`[(2,5),(10,12)]` yields a jump-cut output of duration 5. -/
theorem jump_cuts_duration_sum_witness :
    (createJumpCuts ⟨20, 1080, 1920, 0, 0, 0⟩ [(2, 5), (10, 12)] 0).map
      Clip.duration = some 5 := by
  have h := jump_cuts_duration_sum ⟨20, 1080, 1920, 0, 0, 0⟩
    [(2, 5), (10, 12)] (by simp)
    (by rintro se hse
        simp only [List.mem_cons, List.mem_singleton] at hse
        rcases hse with rfl | rfl | h
        · norm_num
        · norm_num
        · cases h)
  rw [h]
  norm_num

/-- C7 (amended): `add_text_overlay` performs no validation of
`start_time`: for `start_time ≥ clip.duration` with `duration=None` it
returns the composite clip unchanged in duration, with a text layer of
nonpositive duration `clip.duration - start_time`, instead of raising. -/
theorem add_text_overlay_returns_ok (clip : Clip) (s : ℚ)
    (h : clip.duration ≤ s) :
    addTextOverlay clip s none = .ok ⟨clip, s, clip.duration - s⟩ ∧
    clip.duration - s ≤ 0 := by
  constructor
  · show Except.ok
        (⟨{ clip with
              duration := max clip.duration (s + (clip.duration - s)) },
          s, clip.duration - s⟩ : OverlayResult) = _
    have h1 : s + (clip.duration - s) = clip.duration := by ring
    rw [h1, max_self]
  · linarith

/-- Witness for C7 (amended) at a 10-second clip and `start_time = 12`. -/
theorem add_text_overlay_returns_ok_witness :
    addTextOverlay ⟨10, 1080, 1920, 0, 0, 0⟩ 12 none =
      .ok ⟨⟨10, 1080, 1920, 0, 0, 0⟩, 12, 10 - 12⟩ ∧
    (10 : ℚ) - 12 ≤ 0 :=
  add_text_overlay_returns_ok ⟨10, 1080, 1920, 0, 0, 0⟩ 12 (by norm_num)

/-- C7 counterexample: at `start_time` equal to the clip duration,
`add_text_overlay` returns a composite clip (with a zero-duration text
layer); it does not fail with the invalid-time-range error the claim
requires. -/
theorem add_text_overlay_no_error_counterexample :
    addTextOverlay ⟨10, 1080, 1920, 0, 0, 0⟩ 10 none =
      .ok ⟨⟨10, 1080, 1920, 0, 0, 0⟩, 10, 0⟩ ∧
    addTextOverlay ⟨10, 1080, 1920, 0, 0, 0⟩ 10 none ≠
      .error EditError.invalidTimeRange := by
  have h : addTextOverlay ⟨10, 1080, 1920, 0, 0, 0⟩ 10 none =
      .ok ⟨⟨10, 1080, 1920, 0, 0, 0⟩, 10, 0⟩ := by
    show Except.ok
        (⟨{ duration := max 10 (10 + (10 - 10)), w := 1080, h := 1920,
            crossfade := 0, fadeInDur := 0, fadeOutDur := 0 },
          10, (10 : ℚ) - 10⟩ : OverlayResult) = _
    norm_num
  exact ⟨h, by rw [h]; simp⟩

/-- Invariant of the selection loop: starting from an accumulated duration
`cur ≤ target`, the accumulated duration plus the total duration of the
clips still to be selected never exceeds the target. -/
theorem selectGo_total_le (target : ℚ) (clips : List Cand) :
    ∀ cur : ℚ, cur ≤ target →
      cur + totalDur (selectGo target cur clips) ≤ target := by
  induction clips with
  | nil =>
      intro cur h
      simpa [selectGo, totalDur] using h
  | cons c rest ih =>
      intro cur h
      by_cases h1 : target ≤ cur
      · simpa [selectGo, h1, totalDur] using h
      · by_cases h2 : c.duration ≤ target - cur
        · have hrec := ih (cur + c.duration) (by linarith)
          simp only [selectGo, if_neg h1, if_pos h2, totalDur,
            List.map_cons, List.sum_cons] at hrec ⊢
          linarith
        · by_cases h3 : 3 ≤ target - cur
          · simp only [selectGo, if_neg h1, if_neg h2, if_pos h3, totalDur,
              List.map_cons, List.map_nil, List.sum_cons, List.sum_nil]
            linarith
          · have hrec := ih cur h
            simpa only [selectGo, if_neg h1, if_neg h2, if_neg h3]
              using hrec

/-- C1 (amended): the selected clips always total at most the target
duration.  A candidate that would overshoot is trimmed to exactly the
remaining budget and selection stops when that budget is at least 3
seconds; when the budget is under 3 seconds the candidate is passed over
and selection continues with the remaining candidates (so the total can
fall short of the target even when the pool holds more material). -/
theorem select_clips_budget (clips : List Cand) (target : ℚ)
    (h : 0 ≤ target) :
    totalDur (selectClips clips target) ≤ target ∧
    (∀ c rest, target < c.duration → 3 ≤ target →
      selectClips (c :: rest) target =
        [{ c with stop := c.start + target, duration := target }]) ∧
    (∀ c rest, target < c.duration → target < 3 →
      selectClips (c :: rest) target = selectClips rest target) := by
  refine ⟨?_, ?_, ?_⟩
  · have := selectGo_total_le target clips 0 h
    simpa [selectClips] using this
  · intro c rest hc h3
    have h1 : ¬ target ≤ (0 : ℚ) := by linarith
    have h2 : ¬ c.duration ≤ target := by linarith
    simp only [selectClips, selectGo, sub_zero, if_neg h1, if_neg h2,
      if_pos h3, zero_add]
  · intro c rest hc h3
    by_cases h0 : target ≤ (0 : ℚ)
    · have ht : target = 0 := le_antisymm h0 h
      subst ht
      cases rest with
      | nil => simp [selectClips, selectGo]
      | cons c' rest' => simp [selectClips, selectGo]
    · have h2 : ¬ c.duration ≤ target := by linarith
      have h3' : ¬ (3 : ℚ) ≤ target := by linarith
      simp only [selectClips, selectGo, sub_zero, if_neg h0, if_neg h2,
        if_neg h3']

/-- Witness for C1 (amended): the bound, the trim-and-stop case and the
skip-and-continue case, each at concrete inputs. -/
theorem select_clips_budget_witness :
    totalDur (selectClips [⟨"a", 0, 8, 8⟩, ⟨"b", 0, 8, 8⟩] 10) ≤ 10 ∧
    selectClips [(⟨"a", 0, 12, 12⟩ : Cand)] 10 = [⟨"a", 0, 0 + 10, 10⟩] ∧
    selectClips [(⟨"a", 0, 2, 2⟩ : Cand)] 1 = selectClips [] 1 := by
  refine ⟨(select_clips_budget [⟨"a", 0, 8, 8⟩, ⟨"b", 0, 8, 8⟩] 10
      (by norm_num)).1,
    (select_clips_budget [] 10 (by norm_num)).2.1 ⟨"a", 0, 12, 12⟩ []
      (by norm_num) (by norm_num),
    (select_clips_budget [] 1 (by norm_num)).2.2 ⟨"a", 0, 2, 2⟩ []
      (by norm_num) (by norm_num)⟩

/-- C1 counterexample: a pool of two 8-second candidates with
`target_duration = 10` has 16 seconds of material (more than the target),
but either shuffle order selects only the first candidate: the 2-second
remaining budget is under 3 seconds, so the second candidate is not
trimmed, and the total is 8, not 10.  Moreover a dropped overshooting
candidate does not stop selection: with pool `[8s, 5s, 1s]` the 5-second
candidate is passed over and the later 1-second candidate is still
selected. -/
theorem select_clips_not_exact_counterexample :
    totalDur [(⟨"a", 0, 8, 8⟩ : Cand), ⟨"b", 0, 8, 8⟩] = 16 ∧
    (10 : ℚ) < 16 ∧
    totalDur (selectClips [(⟨"a", 0, 8, 8⟩ : Cand), ⟨"b", 0, 8, 8⟩] 10) = 8 ∧
    totalDur (selectClips [(⟨"b", 0, 8, 8⟩ : Cand), ⟨"a", 0, 8, 8⟩] 10) = 8 ∧
    (8 : ℚ) ≠ 10 ∧
    selectClips [(⟨"a", 0, 8, 8⟩ : Cand), ⟨"c", 0, 5, 5⟩, ⟨"d", 0, 1, 1⟩]
        10 =
      [⟨"a", 0, 8, 8⟩, ⟨"d", 0, 1, 1⟩] := by
  refine ⟨by norm_num [totalDur], by norm_num,
    by norm_num [selectClips, selectGo, totalDur],
    by norm_num [selectClips, selectGo, totalDur],
    by norm_num,
    by norm_num [selectClips, selectGo]⟩

/-- Unfolding equation for the executor on a non-empty operation list. -/
theorem executeOperations_cons (env : ExecEnv) (op : Operation)
    (rest : List Operation) (clip : Clip) :
    executeOperations env (op :: rest) clip =
      match executeSingleOperation env op clip with
      | .ok clip' => executeOperations env rest clip'
      | .error e => .error e := rfl

/-- A command sequence containing a `concatenate` operation can never
complete successfully: execution either fails earlier or fails at the
`concatenate` dispatch. -/
theorem executeOperations_concat_not_ok (env : ExecEnv) :
    ∀ (pre post : List Operation) (clip out : Clip),
      executeOperations env (pre ++ Operation.concatenate :: post) clip ≠
        .ok out := by
  intro pre
  induction pre with
  | nil =>
      intro post clip out h
      rw [List.nil_append, executeOperations_cons] at h
      simp only [executeSingleOperation] at h
      cases h
  | cons op pre ih =>
      intro post clip out h
      rw [List.cons_append, executeOperations_cons] at h
      cases hop : executeSingleOperation env op clip with
      | ok c' =>
          rw [hop] at h
          exact ih post c' out h
      | error e =>
          rw [hop] at h
          cases h

/-- C8: dispatching a `concatenate` operation fails at the executor layer
(the `NotImplementedError` raise, the failure the spec names
`NotSupportedHereError`) without invoking any editing primitive, and no
operation sequence containing `concatenate` executes successfully. -/
theorem concatenate_rejected_at_executor (env : ExecEnv) (clip : Clip) :
    executeSingleOperation env .concatenate clip =
      .error .notImplemented ∧
    ∀ (pre post : List Operation) (out : Clip),
      executeOperations env (pre ++ Operation.concatenate :: post) clip ≠
        .ok out :=
  ⟨rfl, fun pre post out =>
    executeOperations_concat_not_ok env pre post clip out⟩

/-- C9 (amended): an individual asset-download failure is skipped and the
batch continues with the remaining posts, and the repurposing operation
fails when zero assets download successfully; failure of the overall
operation does not, however, imply that zero assets downloaded (see the
counterexample). -/
theorem download_failures_skipped_zero_downloads_fail
    (dl : String → String → String → Option String) (post : Post)
    (rest : List Post) (mid url : String)
    (hid : post.mediaId = some mid) (hurl : post.mediaUrl = some url)
    (hmid : mid ≠ "") (hu : url ≠ "")
    (hvid : hasSub "video" (pyLower (post.mediaType.getD "VIDEO")) = true)
    (hfail : dl url mid "video" = none)
    (env : RepEnv) (target : ℚ) (hook : String) (sourcePosts : List Post)
    (hzero : downloadBatch env.dl
        ((sourcePosts.filter
          (fun p => hasSub "video" (pyLower (p.mediaType.getD "")))).take 5)
        = []) :
    downloadBatch dl (post :: rest) = downloadBatch dl rest ∧
    createReelFromPlan env target hook sourcePosts = none := by
  constructor
  · have htask : downloadTask dl post = some (mid, none) := by
      simp only [downloadTask, hid, hurl]
      have hne : ¬ (mid = "" ∨ url = "") := by simp [hmid, hu]
      rw [if_neg hne, if_pos hvid, hfail]
    simp only [downloadBatch, List.filterMap_cons, htask]
    simp
  · simp only [createReelFromPlan]
    by_cases hvp : (sourcePosts.filter
        (fun p => hasSub "video" (pyLower (p.mediaType.getD "")))).take 5
        = []
    · simp [hvp]
    · simp [hvp, hzero]

/-- A download oracle on which every download fails. -/
def dlAllFail : String → String → String → Option String := fun _ _ _ => none

/-- A video post with id `"id1"` and url `"u1"`. -/
def postV : Post := ⟨some "id1", some "u1", some "VIDEO"⟩

/-- A repurposing environment in which every download fails. -/
def envAllFail : RepEnv :=
  ⟨dlAllFail, fun _ => .error (), fun _ => .error (), fun _ => none,
   fun _ => none⟩

/-- Witness for C9 (amended): with the failing download oracle, the failing
post is skipped, and the plan run fails when nothing downloads. -/
theorem download_failures_skipped_zero_downloads_fail_witness :
    downloadBatch dlAllFail [postV, postV] = downloadBatch dlAllFail [postV] ∧
    createReelFromPlan envAllFail 30 "" [postV] = none :=
  download_failures_skipped_zero_downloads_fail dlAllFail postV [postV]
    "id1" "u1" rfl rfl (by decide) (by decide) (by decide) rfl
    envAllFail 30 "" [postV] (by decide)

/-- A repurposing environment in which every download succeeds but the
downloaded file cannot be loaded, so clip extraction yields nothing. -/
def envDlOk : RepEnv :=
  ⟨fun _ _ _ => some "f.mp4", fun _ => .error (), fun _ => .error (),
   fun _ => none, fun _ => none⟩

/-- C9 counterexample: one asset downloads successfully (the batch result
is non-empty), yet the repurposing operation still fails, because clip
extraction produces zero candidates; so the operation failing does not
imply that zero assets downloaded, refuting the claimed "if and only
if". -/
theorem repurposing_fails_despite_download_counterexample :
    downloadBatch envDlOk.dl
        (([postV].filter
          (fun p => hasSub "video" (pyLower (p.mediaType.getD "")))).take 5)
        = [("id1", "f.mp4")] ∧
    createReelFromPlan envDlOk 30 "" [postV] = none := by
  refine ⟨by decide, by decide⟩

end InstaAI
